import Mathlib

/-!
Verification of the saas-backend HTTP proxy (src/server.js and the variant
embedded in src/README.md) against its natural-language specification.

The development shallow-embeds the request-handling pipeline:
JSON values and a model of JSON.parse, the greedy bracket-span extraction
used by the social-post response parser, the prompt builders, the
model-fallback loops, the HTTP endpoint handlers of the three source
variants, the CORS origin check, and a spec-modelled fixed-window rate
limiter.
-/

namespace SaasBackend

/-- JSON values as produced by JSON.parse.  Numbers keep their raw lexeme:
no claim in this development depends on numeric values, only on
parse success/failure and on truthiness (zero versus non-zero). -/
inductive Js where
  | null
  | bool (b : Bool)
  | num (raw : String)
  | str (s : String)
  | arr (elems : List Js)
  | obj (fields : List (String × Js))

/-- Whitespace accepted around JSON tokens by JSON.parse. -/
def jsonWs (c : Char) : Bool :=
  c == ' ' || c == '\t' || c == '\n' || c == '\r'

/-- Drop leading JSON whitespace. -/
def skipWs : List Char → List Char
  | c :: cs => if jsonWs c then skipWs cs else c :: cs
  | [] => []

/-- Value of a hexadecimal digit. -/
def hexVal (c : Char) : Option Nat :=
  if '0' ≤ c ∧ c ≤ '9' then some (c.toNat - '0'.toNat)
  else if 'a' ≤ c ∧ c ≤ 'f' then some (c.toNat - 'a'.toNat + 10)
  else if 'A' ≤ c ∧ c ≤ 'F' then some (c.toNat - 'A'.toNat + 10)
  else none

/-- Decode the body of a JSON string literal, the opening quote already
consumed.  Escape handling follows JSON.parse; a lone surrogate in a
\u escape is approximated by the NUL character (Lean characters are
scalar values), a detail no claim depends on. -/
def strBody (acc : List Char) : List Char → Option (String × List Char)
  | '"' :: rest => some (String.mk acc.reverse, rest)
  | '\\' :: 'u' :: h1 :: h2 :: h3 :: h4 :: rest =>
    match hexVal h1, hexVal h2, hexVal h3, hexVal h4 with
    | some a, some b, some c, some d =>
      strBody (Char.ofNat (((a * 16 + b) * 16 + c) * 16 + d) :: acc) rest
    | _, _, _, _ => none
  | '\\' :: e :: rest =>
    match e with
    | '"' => strBody ('"' :: acc) rest
    | '\\' => strBody ('\\' :: acc) rest
    | '/' => strBody ('/' :: acc) rest
    | 'b' => strBody ('\x08' :: acc) rest
    | 'f' => strBody ('\x0C' :: acc) rest
    | 'n' => strBody ('\n' :: acc) rest
    | 'r' => strBody ('\r' :: acc) rest
    | 't' => strBody ('\t' :: acc) rest
    | _ => none
  | c :: rest => if c.toNat < 0x20 then none else strBody (c :: acc) rest
  | [] => none

/-- Longest prefix of decimal digits, with the remainder. -/
def digitSpan : List Char → List Char × List Char
  | c :: cs =>
    if c.isDigit then
      let (ds, rest) := digitSpan cs
      (c :: ds, rest)
    else ([], c :: cs)
  | [] => ([], [])

/-- Integer part of a JSON number ('0', or a nonzero digit followed by
digits; leading zeros are rejected, as by JSON.parse). -/
def intPart : List Char → Option (List Char × List Char)
  | '0' :: cs => some (['0'], cs)
  | c :: cs =>
    if c.isDigit then
      let (ds, rest) := digitSpan cs
      some (c :: ds, rest)
    else none
  | [] => none

/-- Optional fraction part ('.' followed by at least one digit). -/
def fracPart : List Char → Option (List Char × List Char)
  | '.' :: cs =>
    match digitSpan cs with
    | ([], _) => none
    | (ds, rest) => some ('.' :: ds, rest)
  | cs => some ([], cs)

/-- Optional exponent part. -/
def expPart : List Char → Option (List Char × List Char)
  | e :: cs =>
    if e == 'e' || e == 'E' then
      match cs with
      | s :: cs' =>
        if s == '+' || s == '-' then
          match digitSpan cs' with
          | ([], _) => none
          | (ds, rest) => some (e :: s :: ds, rest)
        else
          match digitSpan (s :: cs') with
          | ([], _) => none
          | (ds, rest) => some (e :: ds, rest)
      | [] => none
    else some ([], e :: cs)
  | [] => some ([], [])

/-- Lex a JSON number, returning its raw lexeme. -/
def numLexeme (cs : List Char) : Option (String × List Char) :=
  let (sign, cs1) := match cs with
    | '-' :: rest => (['-'], rest)
    | rest => (([] : List Char), rest)
  match intPart cs1 with
  | none => none
  | some (ip, cs2) =>
    match fracPart cs2 with
    | none => none
    | some (fp, cs3) =>
      match expPart cs3 with
      | none => none
      | some (ep, cs4) => some (String.mk (sign ++ ip ++ fp ++ ep), cs4)

mutual

/-- Parse one JSON value (fuel-indexed recursive descent). -/
def pVal : Nat → List Char → Option (Js × List Char)
  | 0, _ => none
  | fuel + 1, cs =>
    match skipWs cs with
    | 'n' :: 'u' :: 'l' :: 'l' :: rest => some (.null, rest)
    | 't' :: 'r' :: 'u' :: 'e' :: rest => some (.bool true, rest)
    | 'f' :: 'a' :: 'l' :: 's' :: 'e' :: rest => some (.bool false, rest)
    | '"' :: rest =>
      match strBody [] rest with
      | some (s, rest') => some (.str s, rest')
      | none => none
    | '[' :: rest =>
      (match skipWs rest with
       | ']' :: rest' => some (.arr [], rest')
       | other => pArrItems fuel other [])
    | '\x7b' :: rest =>
      (match skipWs rest with
       | '\x7d' :: rest' => some (.obj [], rest')
       | other => pObjItems fuel other [])
    | other =>
      match numLexeme other with
      | some (raw, rest) => some (.num raw, rest)
      | none => none

/-- Parse the items of a non-empty JSON array, accumulating in reverse. -/
def pArrItems : Nat → List Char → List Js → Option (Js × List Char)
  | 0, _, _ => none
  | fuel + 1, cs, acc =>
    match pVal fuel cs with
    | none => none
    | some (v, rest) =>
      match skipWs rest with
      | ',' :: rest' => pArrItems fuel rest' (v :: acc)
      | ']' :: rest' => some (.arr (v :: acc).reverse, rest')
      | _ => none

/-- Parse the members of a non-empty JSON object, accumulating in reverse. -/
def pObjItems : Nat → List Char → List (String × Js) → Option (Js × List Char)
  | 0, _, _ => none
  | fuel + 1, cs, acc =>
    match skipWs cs with
    | '"' :: rest =>
      match strBody [] rest with
      | none => none
      | some (k, rest') =>
        match skipWs rest' with
        | ':' :: rest'' =>
          (match pVal fuel rest'' with
           | none => none
           | some (v, rest3) =>
             match skipWs rest3 with
             | ',' :: rest4 => pObjItems fuel rest4 ((k, v) :: acc)
             | '\x7d' :: rest4 => some (.obj ((k, v) :: acc).reverse, rest4)
             | _ => none)
        | _ => none
    | _ => none

end

/-- Model of JSON.parse: some value on success, none when JSON.parse
would throw a SyntaxError.  The whole input must be consumed (up to
trailing whitespace). -/
def jsonParse (s : String) : Option Js :=
  let cs := s.data
  match pVal (cs.length + 1) cs with
  | some (v, rest) => if skipWs rest = [] then some v else none
  | none => none

/-- A JSON number lexeme denotes zero iff its mantissa has no digit 1-9. -/
def numIsZero (raw : String) : Bool :=
  (raw.data.takeWhile (fun c => c != 'e' && c != 'E')).all
    (fun c => !(c.isDigit) || c == '0')

/-- JavaScript truthiness of a parsed JSON value. -/
def jsTruthy : Js → Bool
  | .null => false
  | .bool b => b
  | .num raw => !numIsZero raw
  | .str s => s != ""
  | .arr _ => true
  | .obj _ => true

/-- Last binding for a key in an object member list (with duplicate keys,
JSON.parse keeps the last occurrence). -/
def lookupLast (fields : List (String × Js)) (k : String) : Option Js :=
  match fields with
  | [] => none
  | (k', v) :: rest =>
    match lookupLast rest k with
    | some r => some r
    | none => if k' = k then some v else none

/-- Property access o[k] on a parsed JSON value: a member of an object,
undefined (none) on any non-object.  Used only for the keys "error" and
"message", which are not Object.prototype members, so the prototype
chain is irrelevant here. -/
def jsGet (v : Js) (k : String) : Option Js :=
  match v with
  | .obj fields => lookupLast fields k
  | _ => none

/-- Number of elements reported by posts.length in the loop guard:
array length for arrays, string length for strings, and 0 for values
whose .length is undefined (undefined > 0 is false in JS). -/
def jsLen : Js → Nat
  | .arr xs => xs.length
  | .str s => s.length
  | _ => 0

/-- Message of the TypeError thrown by reading .error on null
(Node wording); it surfaces via the route handler's outer catch. -/
def nullReadErrorMsg : String :=
  "Cannot read properties of null (reading 'error')"

/-- The details value computed from a captured upstream error text:
let errorJson = JSON.parse(text) (with {message: text} on SyntaxError),
then errorJson.error?.message || errorJson.message || text.
Returns none when the computation would throw (text parses to null,
so reading .error on it raises a TypeError). -/
def errorDetails (text : String) : Option Js :=
  match jsonParse text with
  | none => some (.str text)
  | some .null => none
  | some v =>
    let m1 : Option Js := (jsGet v "error").bind (fun e => jsGet e "message")
    match m1 with
    | some j =>
      if jsTruthy j then some j
      else
        match jsGet v "message" with
        | some j2 => if jsTruthy j2 then some j2 else some (.str text)
        | none => some (.str text)
    | none =>
      match jsGet v "message" with
      | some j2 => if jsTruthy j2 then some j2 else some (.str text)
      | none => some (.str text)

/-- Whitespace for the String.prototype.trim model (the common members
of the JS WhiteSpace/LineTerminator classes). -/
def jsWsChar (c : Char) : Bool :=
  c == ' ' || c == '\t' || c == '\n' || c == '\r' || c == '\x0B' ||
  c == '\x0C' || c == '\u00A0'

/-- Model of String.prototype.trim. -/
def jsTrim (s : String) : String :=
  String.mk (((s.data.dropWhile jsWsChar).reverse.dropWhile jsWsChar).reverse)

/-! ## Bracket-span extraction

The content endpoints run content.match(/\[[\s\S]*\]/) and parse the
matched span.  The regex engine scans left to right for the first
position where the pattern matches; at a '[' the greedy [\s\S]*
backtracks to the last ']' of the remaining input. -/

/-- Index of the first occurrence of a character. -/
def idxOfFirst (c : Char) : List Char → Option Nat
  | [] => none
  | x :: xs =>
    if x = c then some 0
    else (idxOfFirst c xs).map (· + 1)

/-- Index of the last occurrence of a character. -/
def idxOfLast (c : Char) : List Char → Option Nat
  | [] => none
  | x :: xs =>
    match idxOfLast c xs with
    | some k => some (k + 1)
    | none => if x = c then some 0 else none

/-- Attempt of the pattern \[[\s\S]*\] at the current position: it
matches iff the position holds '[' and a ']' occurs later; the greedy
star then extends the match to the last such ']'. -/
def tryMatchAt (cs : List Char) : Option (List Char) :=
  match cs with
  | c :: rest =>
    if c = '[' then
      match idxOfLast ']' rest with
      | some j => some ('[' :: rest.take (j + 1))
      | none => none
    else none
  | [] => none

/-- Left-to-right scan of the regex engine: the overall match is the
attempt at the earliest position where one succeeds. -/
def regexScan : List Char → Option (List Char)
  | [] => none
  | c :: rest =>
    match tryMatchAt (c :: rest) with
    | some m => some m
    | none => regexScan rest

/-- The span content.match(/\[[\s\S]*\]/) extracts, if any. -/
def extractSpan (s : String) : Option String :=
  (regexScan s.data).map String.mk

/-- Outcome of the span-extraction-plus-JSON.parse step shared by the
content endpoints: no bracketed span, a JSON.parse SyntaxError, or the
parsed value. -/
inductive SpanParse where
  | noSpan
  | parseFail
  | parsed (v : Js)

/-- The parsing step of the content endpoints applied to the raw
upstream text. -/
def spanParse (content : String) : SpanParse :=
  match extractSpan content with
  | none => .noSpan
  | some s =>
    match jsonParse s with
    | some v => .parsed v
    | none => .parseFail

/-! ## Prompt builders -/

/-- Truthiness of a possibly-absent request string (absent and "" are
falsy, as for !field in the source). -/
def truthyOpt : Option String → Bool
  | none => false
  | some s => s != ""

/-- Template interpolation of a possibly-absent string: undefined
stringifies as "undefined". -/
def interpOpt : Option String → String
  | none => "undefined"
  | some s => s

/-- The field || placeholder idiom of the templates. -/
def orElseStr (v : Option String) (dflt : String) : String :=
  match v with
  | none => dflt
  | some s => if s = "" then dflt else s

/-- First binding for a key among an object literal's own properties
(the literals here have pairwise distinct keys). -/
def lookupOwnStr : List (String × String) → String → Option String
  | [], _ => none
  | (k', v) :: rest, k => if k' = k then some v else lookupOwnStr rest k

/-- Template stringification of an inherited native method. -/
def protoFnStr (name : String) : String :=
  "function " ++ name ++ "() \x7b [native code] \x7d"

/-- Property lookup falling through to Object.prototype: an object
literal such as styleDescriptions inherits the prototype members, so
indexing it with e.g. "toString" yields a (truthy) function rather
than undefined.  The result is the template stringification of the
inherited value. -/
def objectProtoLookup (key : String) : Option String :=
  if key = "constructor" then some (protoFnStr "Object")
  else if key = "hasOwnProperty" ∨ key = "isPrototypeOf" ∨
          key = "propertyIsEnumerable" ∨ key = "toLocaleString" ∨
          key = "toString" ∨ key = "valueOf" ∨
          key = "__defineGetter__" ∨ key = "__defineSetter__" ∨
          key = "__lookupGetter__" ∨ key = "__lookupSetter__" then
    some (protoFnStr key)
  else if key = "__proto__" then some "[object Object]"
  else none

/-- The table[key] || dflt idiom of the prompt builders: an absent key
indexes as "undefined" (not a member), an own value is kept, an
inherited Object.prototype member is truthy and kept (stringified),
anything else falls back to the default. -/
def jsLookupOr (own : List (String × String)) (key : Option String)
    (dflt : String) : String :=
  match key with
  | none => dflt
  | some k =>
    match lookupOwnStr own k with
    | some v => if v = "" then dflt else v
    | none =>
      match objectProtoLookup k with
      | some s => s
      | none => dflt

/-- Own properties of the styleDescriptions literal. -/
def styleDescriptions : List (String × String) :=
  [("profesional", "formal y profesional"),
   ("emocional", "emotivo y que conecte con el comprador"),
   ("minimalista", "conciso y elegante"),
   ("detallado", "muy detallado y exhaustivo")]

/-- Own properties of the toneDescriptions literal. -/
def toneDescriptions : List (String × String) :=
  [("profesional", "formal y profesional, enfocado en expertise"),
   ("cercano", "amigable y cercano, como un amigo"),
   ("inspiracional", "motivador e inspiracional"),
   ("humoristico", "con humor ligero y entretenido"),
   ("educativo", "informativo y educativo")]

/-- Own properties of the networkFormats literal. -/
def networkFormats : List (String × String) :=
  [("instagram", "posts visuales con 3-5 hashtags, máximo 150 palabras"),
   ("facebook", "posts conversacionales, 1-3 hashtags"),
   ("linkedin", "contenido profesional y de valor"),
   ("twitter", "tweets de máximo 280 caracteres"),
   ("tiktok", "descripciones cortas y llamativas")]

/-- A property-generation request body (strings or absent; the numeric
fields are submitted as strings). -/
structure PropReq where
  propertyType : Option String
  rooms : Option String
  bathrooms : Option String
  size : Option String
  location : Option String
  features : Option String
  style : Option String

/-- buildPropertyPrompt from the source (identical in all variants). -/
def buildPropertyPrompt (data : PropReq) : String :=
  "Genera una descripción atractiva para esta propiedad:\n\nTipo: " ++
  interpOpt data.propertyType ++
  "\nHabitaciones: " ++ orElseStr data.rooms "No especificado" ++
  "\nBaños: " ++ orElseStr data.bathrooms "No especificado" ++
  "\nTamaño: " ++ orElseStr data.size "No especificado" ++ " m²" ++
  "\nUbicación: " ++ interpOpt data.location ++
  "\nCaracterísticas: " ++ orElseStr data.features "No especificadas" ++
  "\nEstilo de escritura: " ++
  jsLookupOr styleDescriptions data.style "profesional" ++
  "\n\nEscribe una descripción de 100-150 palabras que destaque los beneficios y genere interés."

/-- A content-generation request body. -/
structure ContentReq where
  businessType : Option String
  businessDesc : Option String
  tone : Option String
  network : Option String
  postCount : Option Int

/-- The argument record of buildContentPrompt: the handlers pass the
already-clamped count as postCount. -/
structure ContentFields where
  businessType : Option String
  businessDesc : Option String
  tone : Option String
  network : Option String
  postCount : Int

/-- Everything of the content prompt after the leading count (the two
|| defaults are the own values toneDescriptions.profesional and
networkFormats.instagram). -/
def contentPromptTail (data : ContentFields) : String :=
  " posts para redes sociales:\n\nNegocio: " ++ interpOpt data.businessType ++
  "\n" ++
  (if truthyOpt data.businessDesc then
    "Descripción: " ++ interpOpt data.businessDesc
   else "") ++
  "\nTono: " ++
  jsLookupOr toneDescriptions data.tone
    "formal y profesional, enfocado en expertise" ++
  "\nRed social: " ++ interpOpt data.network ++ " (" ++
  jsLookupOr networkFormats data.network
    "posts visuales con 3-5 hashtags, máximo 150 palabras" ++ ")" ++
  "\n\nRequisitos:\n- Posts únicos y variados\n- Emojis apropiados\n- Mezcla tipos: tips, preguntas, promociones, behind the scenes\n- Hashtags relevantes\n- Español chileno/latinoamericano\n\nResponde SOLO con el JSON array."

/-- buildContentPrompt from the source (identical in all variants). -/
def buildContentPrompt (data : ContentFields) : String :=
  "Genera " ++ toString data.postCount ++ contentPromptTail data

/-- const count = Math.min(parseInt(postCount) || 5, 30): an absent or
non-numeric postCount gives NaN, NaN and 0 are falsy so default to 5,
then the value is capped above at 30.  There is no lower bound. -/
def clampCount (postCount : Option Int) : Int :=
  match postCount with
  | none => 5
  | some n => min (if n = 0 then 5 else n) 30

/-- The prompt the content handlers build from a request. -/
def contentPromptOf (req : ContentReq) : String :=
  buildContentPrompt
    ⟨req.businessType, req.businessDesc, req.tone, req.network,
     clampCount req.postCount⟩

/-- Array.prototype.slice(0, count) on a list: a negative end counts
from the end of the array, clamped at 0. -/
def jsSliceTo (xs : List Js) (count : Int) : List Js :=
  if 0 ≤ count then xs.take count.toNat
  else xs.take (xs.length - min xs.length count.natAbs)

/-- The five fixed fallback templates, as the JSON the endpoint would
serialize. -/
def fallbackTemplates (businessType : String) : List Js :=
  [.obj [("content", .str ("✨ ¿Sabías que " ++ businessType ++
            " puede transformar tu día? Descubre cómo 👆")),
         ("hashtags", .arr [.str "#Emprendimiento", .str "#Chile"])],
   .obj [("content", .str ("🔥 ¡Nuevo en " ++ businessType ++
            "! Estamos emocionados de compartir esto contigo 💯")),
         ("hashtags", .arr [.str "#Novedades", .str "#Tendencias"])],
   .obj [("content", .str
            "💡 CONSEJO DEL DÍA: Un pequeño cambio puede hacer una gran diferencia 🙌"),
         ("hashtags", .arr [.str "#Tips", .str "#Consejos"])],
   .obj [("content", .str ("📸 Behind the scenes de " ++ businessType ++
            " ✨ Con pasión y dedicación ❤️")),
         ("hashtags", .arr [.str "#BehindTheScenes", .str "#Trabajo"])],
   .obj [("content", .str "🎉 ¡GRACIAS por ser parte de nuestra comunidad! 🙏"),
         ("hashtags", .arr [.str "#Comunidad", .str "#Gracias"])]]

/-- generateFallbackPosts from the source: templates.slice(0, count). -/
def generateFallbackPosts (businessType : String) (count : Int) : List Js :=
  jsSliceTo (fallbackTemplates businessType) count

/-! ## Upstream calls and the endpoint handlers -/

/-- Observable outcome of one fetch of the upstream API.
fetchThrow covers every rejection inside the try (network error,
response.json() failure and, for the Inaia client, the AbortError of
the 30 s timeout, whose message the client rewrites before rethrowing);
httpErr is a non-2xx response with its status and body text; ok is a
2xx response with the extracted text (possibly empty). -/
inductive CallOutcome where
  | fetchThrow (msg : String)
  | httpErr (status : Nat) (body : String)
  | ok (content : String)
deriving DecidableEq

/-- An HTTP response: status code and JSON body. -/
structure Resp where
  status : Nat
  body : Js

/-- A 400 validation response. -/
def resp400 (msg : String) : Resp :=
  ⟨400, .obj [("error", .str msg)]⟩

/-- The catch-all 500 of the route handlers:
\x7berror: "Error interno del servidor", details: error.message\x7d. -/
def resp500internal (details : String) : Resp :=
  ⟨500, .obj [("error", .str "Error interno del servidor"),
              ("details", .str details)]⟩

/-- The 200 body of the property endpoints. -/
def successDesc (d : String) : Js :=
  .obj [("success", .bool true), ("description", .str d)]

/-- The 200 body of the content endpoints. -/
def successPosts (posts : Js) : Js :=
  .obj [("success", .bool true), ("posts", posts)]

/-- The 400 message of the property endpoints. -/
def propMissingMsg : String :=
  "Faltan campos requeridos (propertyType, location)"

/-- The 400 message of the content endpoints. -/
def bizMissingMsg : String :=
  "Falta el tipo de negocio (businessType)"

/-- The fixed ordered candidate list of the fallback variant (the same
four models in both endpoints). -/
def fallbackModels : List String :=
  ["meta-llama/llama-3.1-8b-instruct:free",
   "mistralai/mistral-7b-instruct:free",
   "google/gemma-7b-it:free",
   "meta-llama/llama-3-8b-instruct:free"]

/-- The error message a loop iteration records into lastError, if any:
the response body text on a non-2xx status, err.message on a throw,
and nothing on a 2xx outcome (even one with empty content). -/
def errMsgOf : CallOutcome → Option String
  | .fetchThrow m => some m
  | .httpErr _ b => some b
  | .ok _ => none

/-- lastError update of one iteration. -/
def updErr (le : Option String) : Option String → Option String
  | some s => some s
  | none => le

/-- The last recorded message of a sequence of optional messages. -/
def lastSome (msgs : List (Option String)) : Option String :=
  msgs.foldl updErr none

/-- Result of the property-endpoint model loop. -/
structure PropLoop where
  description : String
  lastError : Option String
  attempts : List String

/-- The for-of loop of the fallback property endpoint: try each model
in order; a 2xx with nonempty content breaks, a 2xx with empty content
just continues, a non-2xx or a throw records lastError and continues. -/
def propLoop (respond : String → CallOutcome) :
    List String → Option String → PropLoop
  | [], le => ⟨"", le, []⟩
  | m :: ms, le =>
    match respond m with
    | .ok c =>
      if c = "" then
        let r := propLoop respond ms le
        ⟨r.description, r.lastError, m :: r.attempts⟩
      else ⟨c, le, [m]⟩
    | .httpErr _ b =>
      let r := propLoop respond ms (some b)
      ⟨r.description, r.lastError, m :: r.attempts⟩
    | .fetchThrow s =>
      let r := propLoop respond ms (some s)
      ⟨r.description, r.lastError, m :: r.attempts⟩

/-- Result of the content-endpoint model loop. -/
structure ContentLoop where
  posts : Js
  lastError : Option String
  attempts : List String

/-- The for-of loop of the fallback content endpoint: a 2xx whose
content holds a bracketed span parsing to a value with positive length
breaks; empty content, a missing span, a parse error and a zero-length
parse all continue without touching lastError; a non-2xx or a throw
records lastError and continues. -/
def contentLoop (respond : String → CallOutcome) :
    List String → Js → Option String → ContentLoop
  | [], posts, le => ⟨posts, le, []⟩
  | m :: ms, posts, le =>
    match respond m with
    | .ok c =>
      if c = "" then
        let r := contentLoop respond ms posts le
        ⟨r.posts, r.lastError, m :: r.attempts⟩
      else
        match spanParse c with
        | .parsed v =>
          if 0 < jsLen v then ⟨v, le, [m]⟩
          else
            let r := contentLoop respond ms v le
            ⟨r.posts, r.lastError, m :: r.attempts⟩
        | .noSpan =>
          let r := contentLoop respond ms posts le
          ⟨r.posts, r.lastError, m :: r.attempts⟩
        | .parseFail =>
          let r := contentLoop respond ms posts le
          ⟨r.posts, r.lastError, m :: r.attempts⟩
    | .httpErr _ b =>
      let r := contentLoop respond ms posts (some b)
      ⟨r.posts, r.lastError, m :: r.attempts⟩
    | .fetchThrow s =>
      let r := contentLoop respond ms posts (some s)
      ⟨r.posts, r.lastError, m :: r.attempts⟩

/-- The 500 sent when a fallback loop exhausts all candidates:
JSON.parse(lastError) (falling back to \x7bmessage: lastError\x7d on a
SyntaxError), then details = errorJson.error?.message ||
errorJson.message || lastError, with error "Error de IA (Agotado)".
If no error was recorded, lastError is null: JSON.parse(null) parses
the coerced string "null" to null, and reading .error on it throws a
TypeError that the outer catch turns into the generic 500; the same
happens when lastError itself is the text "null". -/
def exhaustResponse (lastError : Option String) : Resp :=
  match lastError with
  | none => resp500internal nullReadErrorMsg
  | some s =>
    match errorDetails s with
    | some d => ⟨500, .obj [("error", .str "Error de IA (Agotado)"),
                            ("details", d)]⟩
    | none => resp500internal nullReadErrorMsg

/-- POST /api/propiedadia/generate of the fallback variant
(src/README.md lines 151-225).  Returns the response and the ordered
list of models attempted (the upstream calls made). -/
def propGenerate (respond : String → CallOutcome) (req : PropReq) :
    Resp × List String :=
  if !truthyOpt req.propertyType || !truthyOpt req.location then
    (resp400 propMissingMsg, [])
  else
    let r := propLoop respond fallbackModels none
    if r.description = "" then (exhaustResponse r.lastError, r.attempts)
    else (⟨200, successDesc r.description⟩, r.attempts)

/-- POST /api/contenidoia/generate of the fallback variant
(src/README.md lines 228-316). -/
def contentGenerate (respond : String → CallOutcome) (req : ContentReq) :
    Resp × List String :=
  if !truthyOpt req.businessType then (resp400 bizMissingMsg, [])
  else
    let r := contentLoop respond fallbackModels (.arr []) none
    if jsLen r.posts = 0 then (exhaustResponse r.lastError, r.attempts)
    else (⟨200, successPosts r.posts⟩, r.attempts)

/-- The non-2xx branch of the single-model variant: the upstream status
is mirrored, with \x7berror: "Error de OpenRouter", details: ...\x7d
derived from the body text by the same errorJson chain as above; the
TypeError corner (body text "null") again lands in the outer catch. -/
def upstreamErrResp (status : Nat) (body : String) : Resp :=
  match errorDetails body with
  | some d => ⟨status, .obj [("error", .str "Error de OpenRouter"),
                             ("details", d)]⟩
  | none => resp500internal nullReadErrorMsg

/-- POST /api/propiedadia/generate of the single-model OpenRouter
variant (src/server.js lines 75-128).  The success path serializes the
extracted content directly, without any empty check.  The second
component counts upstream calls. -/
def propGenerateSingle (outcome : CallOutcome) (req : PropReq) :
    Resp × Nat :=
  if !truthyOpt req.propertyType || !truthyOpt req.location then
    (resp400 propMissingMsg, 0)
  else
    match outcome with
    | .httpErr st b => (upstreamErrResp st b, 1)
    | .fetchThrow m => (resp500internal m, 1)
    | .ok c => (⟨200, successDesc c⟩, 1)

/-- The parse stage of the single-model content endpoint
(src/server.js lines 182-194): posts starts as []; a found span is
JSON.parsed into posts; a SyntaxError is caught and replaced by the
template fallback posts; the response is 200 in every case. -/
def contentSingleResult (businessType : String) (count : Int)
    (content : String) : Resp :=
  match spanParse content with
  | .noSpan => ⟨200, successPosts (.arr [])⟩
  | .parsed v => ⟨200, successPosts v⟩
  | .parseFail =>
    ⟨200, successPosts (.arr (generateFallbackPosts businessType count))⟩

/-- POST /api/contenidoia/generate of the single-model OpenRouter
variant (src/server.js lines 131-200). -/
def contentGenerateSingle (outcome : CallOutcome) (req : ContentReq) :
    Resp × Nat :=
  if !truthyOpt req.businessType then (resp400 bizMissingMsg, 0)
  else
    match outcome with
    | .httpErr st b => (upstreamErrResp st b, 1)
    | .fetchThrow m => (resp500internal m, 1)
    | .ok c =>
      (contentSingleResult (interpOpt req.businessType)
        (clampCount req.postCount) c, 1)

/-- callInaiaAPI (src/server.js Inaia variant): a non-2xx becomes a
thrown "Inaia API error (status): body", a 2xx whose text is empty or
whitespace-only becomes a thrown "Inaia returned empty response",
otherwise the text is returned. -/
def callInaia (outcome : CallOutcome) : Except String String :=
  match outcome with
  | .fetchThrow msg => .error msg
  | .httpErr status body =>
    .error ("Inaia API error (" ++ toString status ++ "): " ++ body)
  | .ok t =>
    if jsTrim t = "" then .error "Inaia returned empty response"
    else .ok t

/-- POST /api/propiedadia/generate of the Inaia variant (src/server.js
lines 420-456): a thrown call lands in the catch as a generic 500, an
empty or whitespace-only description is rejected with a dedicated 500,
otherwise 200 with the description. -/
def inaiaPropGenerate (outcome : CallOutcome) (req : PropReq) :
    Resp × Nat :=
  if !truthyOpt req.propertyType || !truthyOpt req.location then
    (resp400 propMissingMsg, 0)
  else
    match callInaia outcome with
    | .error msg => (resp500internal msg, 1)
    | .ok description =>
      if jsTrim description = "" then
        (⟨500, .obj
          [("error", .str "Error de IA: Inaia no retornó una respuesta válida"),
           ("details", .str "La respuesta está vacía")]⟩, 1)
      else (⟨200, successDesc description⟩, 1)

/-! ## CORS origin policy -/

/-- The default allow-list (no ALLOWED_ORIGINS configured). -/
def defaultAllowedOrigins : List String := ["http://localhost:5500"]

/-- The cors origin callback: requests without an Origin header pass,
origins on the allow-list pass, anything else is an error (message of
the Inaia variant, which appends the origin). -/
def corsOriginDecision (allowed : List String) :
    Option String → Except String Unit
  | none => .ok ()
  | some o =>
    if allowed.contains o then .ok ()
    else .error ("No permitido por CORS: " ++ o)

/-- The middleware pipeline seen by one request: the cors middleware
runs before every route handler, so a rejected origin produces an
error without the handler result; route stands for whatever response
the matched handler would produce. -/
def appPipeline (allowed : List String) (origin : Option String)
    (route : Resp × Nat) : Except String (Resp × Nat) :=
  match corsOriginDecision allowed origin with
  | .error m => .error m
  | .ok _ => .ok route

/-! ## Rate limiter -/

/-- The options passed to express-rate-limit (src/server.js lines
40-46); maxHits is the max option. -/
structure RateLimitConfig where
  windowMs : Nat
  maxHits : Nat
  message : Js

/-- The limiter configuration of the source. -/
def limiter : RateLimitConfig :=
  ⟨60 * 1000, 10,
   .obj [("error",
          .str "Demasiadas solicitudes. Por favor espera un momento.")]⟩

/-- Modelled from the spec: the fixed-window counter of the
express-rate-limit dependency, whose implementation is not part of
this repository.  A request at time t from a client ip falls into
window t / windowMs; it is allowed iff fewer than maxHits earlier
requests share its (ip, window) key. -/
def rlKey (cfg : RateLimitConfig) (t : Nat) (ip : String) : String × Nat :=
  (ip, t / cfg.windowMs)

/-- Modelled from the spec: per-key decisions, threading the list of
keys already seen; true means the request passes, false means it is
answered with 429 and the configured message. -/
def rlGo (cfg : RateLimitConfig) (prev : List (String × Nat)) :
    List (Nat × String) → List ((String × Nat) × Bool)
  | [] => []
  | (t, ip) :: rest =>
    let k := rlKey cfg t ip
    (k, decide (prev.count k < cfg.maxHits)) :: rlGo cfg (k :: prev) rest

/-- Modelled from the spec: decisions for a request sequence. -/
def rlDecisions (cfg : RateLimitConfig) (reqs : List (Nat × String)) :
    List Bool :=
  (rlGo cfg [] reqs).map (·.2)

/-- Modelled from the spec: the response of a denied request — 429
with the configured structured message. -/
def rlDenied (cfg : RateLimitConfig) : Resp :=
  ⟨429, cfg.message⟩

/-- Requests of one window that were let through for a given key. -/
def rlAllowedFor (decs : List ((String × Nat) × Bool))
    (k : String × Nat) : Nat :=
  decs.countP (fun p => p.1 == k && p.2)

/-- The break condition of the property loop: a 2xx outcome with
nonempty extracted content. -/
def propUsable : CallOutcome → Bool
  | .ok c => c != ""
  | _ => false

/-- The break condition of the content loop: a 2xx outcome with
nonempty content whose bracketed span parses to a value of positive
length. -/
def contentUsable : CallOutcome → Bool
  | .ok c =>
    if c = "" then false
    else
      match spanParse c with
      | .parsed v => decide (0 < jsLen v)
      | _ => false
  | _ => false

/-- A property request with both required fields present. -/
def validPropReq : PropReq :=
  ⟨some "departamento", none, none, none, some "Providencia", none, none⟩

/-- A property request missing propertyType. -/
def noTypeReq : PropReq :=
  ⟨none, none, none, none, some "Santiago", none, none⟩

/-- A content request missing businessType. -/
def noBizReq : ContentReq := ⟨none, none, none, none, none⟩

/-- A content request with businessType present. -/
def validContentReq : ContentReq :=
  ⟨some "Cafetería", none, none, none, some 7⟩

/-- Scenario upstream for the fallback claim: the first candidate
throws, the second gets a non-2xx, the third a 2xx with empty output,
the fourth succeeds. -/
def scenarioRespond : String → CallOutcome := fun m =>
  if m = "meta-llama/llama-3.1-8b-instruct:free" then
    .fetchThrow "fetch failed"
  else if m = "mistralai/mistral-7b-instruct:free" then
    .httpErr 503 "Service Unavailable"
  else if m = "google/gemma-7b-it:free" then .ok ""
  else .ok "Hermoso departamento en Providencia"

/-- An upstream that always replies with a parsable nonempty array. -/
def alwaysArrayRespond : String → CallOutcome := fun _ => .ok "[1]"

/-- Exhaustion scenario: the first candidate records an error text, the
remaining three fail with empty 2xx output (which records nothing). -/
def exhaustRespondA : String → CallOutcome := fun m =>
  if m = "meta-llama/llama-3.1-8b-instruct:free" then
    .httpErr 503 "upstream down A"
  else .ok ""

/-- Same shape as exhaustRespondA with a different first error text;
the last observed failure of both scenarios is identical. -/
def exhaustRespondB : String → CallOutcome := fun m =>
  if m = "meta-llama/llama-3.1-8b-instruct:free" then
    .httpErr 503 "upstream down B"
  else .ok ""

/-- Eleven requests from one client in rapid succession, all inside
the first 60,000 ms window. -/
def elevenRapid : List (Nat × String) :=
  (List.range 11).map (fun i => (i, "203.0.113.7"))

/-- Thirteen requests from one client inside one window. -/
def thirteenRapid : List (Nat × String) :=
  (List.range 13).map (fun i => (i, "203.0.113.7"))

/-! ## Helper lemmas -/

/-- Unfolding equation for idxOfLast on a cons cell. -/
theorem idxOfLast_cons (c x : Char) (xs : List Char) :
    idxOfLast c (x :: xs) =
      match idxOfLast c xs with
      | some k => some (k + 1)
      | none => if x = c then some 0 else none := rfl

/-- A scan over characters without any closing bracket finds no match. -/
theorem regexScan_eq_none_of_no_close :
    ∀ cs : List Char, idxOfLast ']' cs = none → regexScan cs = none := by
  intro cs
  induction cs with
  | nil => intro _; rfl
  | cons x xs ih =>
    intro h
    rw [idxOfLast_cons] at h
    cases hxs : idxOfLast ']' xs with
    | some k => rw [hxs] at h; simp at h
    | none =>
      rw [hxs] at h
      have hx : ¬ x = ']' := by
        intro hcontra; rw [if_pos hcontra] at h; simp at h
      show (match tryMatchAt (x :: xs) with
            | some m => some m
            | none => regexScan xs) = none
      have htm : tryMatchAt (x :: xs) = none := by
        show (if x = '[' then
                match idxOfLast ']' xs with
                | some j => some ('[' :: xs.take (j + 1))
                | none => none
              else none) = none
        by_cases hb : x = '['
        · rw [if_pos hb, hxs]
        · rw [if_neg hb]
      rw [htm]
      exact ih hxs

/-- A scan over characters without any opening bracket finds no match. -/
theorem regexScan_eq_none_of_no_open :
    ∀ cs : List Char, idxOfFirst '[' cs = none → regexScan cs = none := by
  intro cs
  induction cs with
  | nil => intro _; rfl
  | cons x xs ih =>
    intro h
    unfold idxOfFirst at h
    by_cases hx : x = '['
    · rw [if_pos hx] at h; simp at h
    · rw [if_neg hx] at h
      have hxs : idxOfFirst '[' xs = none := by
        cases hh : idxOfFirst '[' xs with
        | some k => rw [hh] at h; simp at h
        | none => rfl
      show (match tryMatchAt (x :: xs) with
            | some m => some m
            | none => regexScan xs) = none
      have htm : tryMatchAt (x :: xs) = none := by
        show (if x = '[' then _ else none) = none
        rw [if_neg hx]
      rw [htm]
      exact ih hxs

/-- When the first opening bracket precedes the last closing bracket,
the regex scan matches exactly the characters between them, inclusive:
the greedy pattern anchors at the first '[' and extends to the last
']'. -/
theorem regexScan_eq_of_first_last :
    ∀ (cs : List Char) (i j : Nat),
      idxOfFirst '[' cs = some i → idxOfLast ']' cs = some j → i < j →
      regexScan cs = some ((cs.drop i).take (j - i + 1)) := by
  intro cs
  induction cs with
  | nil => intro i j hf _ _; simp [idxOfFirst] at hf
  | cons x xs ih =>
    intro i j hf hl hij
    rw [idxOfLast_cons] at hl
    by_cases hx : x = '['
    · unfold idxOfFirst at hf
      rw [if_pos hx] at hf
      have hi : i = 0 := by simpa using hf.symm
      subst hi
      cases hxs : idxOfLast ']' xs with
      | none =>
        rw [hxs] at hl
        have hne : ¬ x = ']' := by rw [hx]; decide
        rw [if_neg hne] at hl
        simp at hl
      | some k =>
        rw [hxs] at hl
        have hj : j = k + 1 := by simpa using hl.symm
        subst hj
        show (match tryMatchAt (x :: xs) with
              | some m => some m
              | none => regexScan xs) = _
        have htm : tryMatchAt (x :: xs) = some ('[' :: xs.take (k + 1)) := by
          show (if x = '[' then
                  match idxOfLast ']' xs with
                  | some j => some ('[' :: xs.take (j + 1))
                  | none => none
                else none) = _
          rw [if_pos hx, hxs]
        rw [htm]
        simp [hx]
    · unfold idxOfFirst at hf
      rw [if_neg hx] at hf
      obtain ⟨i', hi', rfl⟩ : ∃ i', idxOfFirst '[' xs = some i' ∧ i = i' + 1 := by
        cases hh : idxOfFirst '[' xs with
        | some v => rw [hh] at hf; exact ⟨v, rfl, by simpa using hf.symm⟩
        | none => rw [hh] at hf; simp at hf
      cases hxs : idxOfLast ']' xs with
      | none =>
        rw [hxs] at hl
        by_cases hxc : x = ']'
        · rw [if_pos hxc] at hl
          have : j = 0 := by simpa using hl.symm
          omega
        · rw [if_neg hxc] at hl; simp at hl
      | some k =>
        rw [hxs] at hl
        have hj : j = k + 1 := by simpa using hl.symm
        subst hj
        show (match tryMatchAt (x :: xs) with
              | some m => some m
              | none => regexScan xs) = _
        have htm : tryMatchAt (x :: xs) = none := by
          show (if x = '[' then _ else none) = none
          rw [if_neg hx]
        rw [htm]
        have := ih i' k hi' hxs (by omega)
        rw [this]
        have harith : k + 1 - (i' + 1) + 1 = k - i' + 1 := by omega
        simp [harith]

/-- The models a property loop attempts do not depend on the incoming
lastError. -/
theorem propLoop_attempts_indep (respond : String → CallOutcome) :
    ∀ (ms : List String) (le le' : Option String),
      (propLoop respond ms le).attempts = (propLoop respond ms le').attempts := by
  intro ms
  induction ms with
  | nil => intro le le'; rfl
  | cons m ms ih =>
    intro le le'
    cases h : respond m with
    | ok c =>
      by_cases hc : c = "" <;> simp [propLoop, h, hc]
      exact ih le le'
    | httpErr st b => simp [propLoop, h]
    | fetchThrow s => simp [propLoop, h]

/-- The models a content loop attempts do not depend on the incoming
posts value or lastError. -/
theorem contentLoop_attempts_indep (respond : String → CallOutcome) :
    ∀ (ms : List String) (p p' : Js) (le le' : Option String),
      (contentLoop respond ms p le).attempts =
        (contentLoop respond ms p' le').attempts := by
  intro ms
  induction ms with
  | nil => intro p p' le le'; rfl
  | cons m ms ih =>
    intro p p' le le'
    cases h : respond m with
    | ok c =>
      by_cases hc : c = ""
      · simp [contentLoop, h, hc]
        exact ih p p' le le'
      · cases hs : spanParse c with
        | parsed v =>
          by_cases hv : 0 < jsLen v
          · simp [contentLoop, h, hc, hs, hv]
          · simp [contentLoop, h, hc, hs, hv]
            exact ih v v le le'
        | noSpan =>
          simp [contentLoop, h, hc, hs]
          exact ih p p' le le'
        | parseFail =>
          simp [contentLoop, h, hc, hs]
          exact ih p p' le le'
    | httpErr st b =>
      simp [contentLoop, h]
      exact ih p p' (some b) (some b)
    | fetchThrow s =>
      simp [contentLoop, h]
      exact ih p p' (some s) (some s)

/-- On exhaustion (empty final description) every model was attempted
and lastError is the fold of the recorded messages. -/
theorem propLoop_exhaust (respond : String → CallOutcome) :
    ∀ (ms : List String) (le : Option String),
      (propLoop respond ms le).description = "" →
      (propLoop respond ms le).lastError =
        (ms.map (fun m => errMsgOf (respond m))).foldl updErr le
      ∧ (propLoop respond ms le).attempts = ms := by
  intro ms
  induction ms with
  | nil => intro le _; exact ⟨rfl, rfl⟩
  | cons m ms ih =>
    intro le h
    cases hr : respond m with
    | ok c =>
      by_cases hc : c = ""
      · rw [hc] at hr
        have h' : (propLoop respond ms le).description = "" := by
          simpa [propLoop, hr] using h
        have := ih le h'
        simp [propLoop, hr, errMsgOf, updErr, this.1, this.2]
      · exfalso
        have : (propLoop respond (m :: ms) le).description = c := by
          simp [propLoop, hr, hc]
        rw [this] at h
        exact hc h
    | httpErr st b =>
      have h' : (propLoop respond ms (some b)).description = "" := by
        simpa [propLoop, hr] using h
      have := ih (some b) h'
      simp [propLoop, hr, errMsgOf, updErr, this.1, this.2]
    | fetchThrow s =>
      have h' : (propLoop respond ms (some s)).description = "" := by
        simpa [propLoop, hr] using h
      have := ih (some s) h'
      simp [propLoop, hr, errMsgOf, updErr, this.1, this.2]

/-- On exhaustion (zero-length final posts) every model was attempted
and lastError is the fold of the recorded messages: empty contents,
missing spans, parse errors and zero-length parses all leave the
recorded error untouched. -/
theorem contentLoop_exhaust (respond : String → CallOutcome) :
    ∀ (ms : List String) (p : Js) (le : Option String),
      jsLen (contentLoop respond ms p le).posts = 0 →
      (contentLoop respond ms p le).lastError =
        (ms.map (fun m => errMsgOf (respond m))).foldl updErr le
      ∧ (contentLoop respond ms p le).attempts = ms := by
  intro ms
  induction ms with
  | nil => intro p le _; exact ⟨rfl, rfl⟩
  | cons m ms ih =>
    intro p le h
    cases hr : respond m with
    | ok c =>
      by_cases hc : c = ""
      · rw [hc] at hr
        have h' : jsLen (contentLoop respond ms p le).posts = 0 := by
          simpa [contentLoop, hr] using h
        have := ih p le h'
        simp [contentLoop, hr, errMsgOf, updErr, this.1, this.2]
      · cases hs : spanParse c with
        | parsed v =>
          by_cases hv : 0 < jsLen v
          · exfalso
            have : (contentLoop respond (m :: ms) p le).posts = v := by
              simp [contentLoop, hr, hc, hs, hv]
            rw [this] at h
            omega
          · have h' : jsLen (contentLoop respond ms v le).posts = 0 := by
              simpa [contentLoop, hr, hc, hs, hv] using h
            have := ih v le h'
            simp [contentLoop, hr, hc, hs, hv, errMsgOf, updErr, this.1, this.2]
        | noSpan =>
          have h' : jsLen (contentLoop respond ms p le).posts = 0 := by
            simpa [contentLoop, hr, hc, hs] using h
          have := ih p le h'
          simp [contentLoop, hr, hc, hs, errMsgOf, updErr, this.1, this.2]
        | parseFail =>
          have h' : jsLen (contentLoop respond ms p le).posts = 0 := by
            simpa [contentLoop, hr, hc, hs] using h
          have := ih p le h'
          simp [contentLoop, hr, hc, hs, errMsgOf, updErr, this.1, this.2]
    | httpErr st b =>
      have h' : jsLen (contentLoop respond ms p (some b)).posts = 0 := by
        simpa [contentLoop, hr] using h
      have := ih p (some b) h'
      simp [contentLoop, hr, errMsgOf, updErr, this.1, this.2]
    | fetchThrow s =>
      have h' : jsLen (contentLoop respond ms p (some s)).posts = 0 := by
        simpa [contentLoop, hr] using h
      have := ih p (some s) h'
      simp [contentLoop, hr, errMsgOf, updErr, this.1, this.2]

/-! ## Claim theorems -/

/-- C6: the social-post response parser selects the span from the first
opening bracket to the last closing bracket of the raw upstream text (a
greedy span match, tolerating leading and trailing prose) and parses
that span as JSON; on the text "Here you go:" newline
"[...one post...]" newline "Enjoy!" it yields exactly one post with
content "hi" and hashtags ["#a"]. -/
theorem span_parse_first_open_last_close :
    (∀ (s : String) (i j : Nat),
       idxOfFirst '[' s.data = some i → idxOfLast ']' s.data = some j →
       i < j →
       extractSpan s = some (String.mk ((s.data.drop i).take (j - i + 1))))
    ∧ (∀ s : String, idxOfFirst '[' s.data = none → extractSpan s = none)
    ∧ (∀ s : String, idxOfLast ']' s.data = none → extractSpan s = none)
    ∧ spanParse "Here you go:\n[\x7b\"content\":\"hi\",\"hashtags\":[\"#a\"]\x7d]\nEnjoy!" =
        .parsed (.arr [.obj [("content", .str "hi"),
                             ("hashtags", .arr [.str "#a"])]]) := by
  refine ⟨?_, ?_, ?_, ?_⟩
  · intro s i j hf hl hij
    unfold extractSpan
    rw [regexScan_eq_of_first_last s.data i j hf hl hij]
    rfl
  · intro s h
    unfold extractSpan
    rw [regexScan_eq_none_of_no_open s.data h]
    rfl
  · intro s h
    unfold extractSpan
    rw [regexScan_eq_none_of_no_close s.data h]
    rfl
  · rfl

/-- Witness for C6: the span characterization at concrete inputs. -/
theorem span_parse_first_open_last_close_witness :
    extractSpan "x[a[b]c]y" =
      some (String.mk (("x[a[b]c]y".data.drop 1).take (7 - 1 + 1)))
    ∧ extractSpan "no brackets" = none
    ∧ extractSpan "abc[" = none :=
  ⟨span_parse_first_open_last_close.1 "x[a[b]c]y" 1 7
     (by decide) (by decide) (by decide),
   span_parse_first_open_last_close.2.1 "no brackets" (by decide),
   span_parse_first_open_last_close.2.2.1 "abc[" (by decide)⟩

/-- C1: with the fixed 4-candidate list, when the first three
candidates fail (transport error, non-2xx, empty output) and the
fourth succeeds, the request succeeds and exactly the four candidates
were attempted in list order; in general both loops advance to the
next candidate on any non-usable outcome (throw, non-2xx, empty
content and, for the content loop only, a parse yielding zero items)
and never advance past a usable one. -/
theorem fallback_tries_in_order_until_success :
    ((propLoop scenarioRespond fallbackModels none).attempts = fallbackModels
     ∧ fallbackModels.length = 4
     ∧ (propGenerate scenarioRespond validPropReq).1 =
         ⟨200, successDesc "Hermoso departamento en Providencia"⟩)
    ∧ (∀ (respond : String → CallOutcome) (m : String) (ms : List String)
         (le : Option String),
        propUsable (respond m) = false →
        (propLoop respond (m :: ms) le).attempts =
          m :: (propLoop respond ms le).attempts)
    ∧ (∀ (respond : String → CallOutcome) (m : String) (ms : List String)
         (le : Option String),
        propUsable (respond m) = true →
        (propLoop respond (m :: ms) le).attempts = [m])
    ∧ (∀ (respond : String → CallOutcome) (m : String) (ms : List String)
         (p : Js) (le : Option String),
        contentUsable (respond m) = false →
        (contentLoop respond (m :: ms) p le).attempts =
          m :: (contentLoop respond ms p le).attempts)
    ∧ (∀ (respond : String → CallOutcome) (m : String) (ms : List String)
         (p : Js) (le : Option String),
        contentUsable (respond m) = true →
        (contentLoop respond (m :: ms) p le).attempts = [m])
    ∧ contentUsable (.ok "[]") = false
    ∧ propUsable (.ok "x") = true := by
  refine ⟨⟨rfl, rfl, rfl⟩, ?_, ?_, ?_, ?_, rfl, rfl⟩
  · intro respond m ms le h
    cases hr : respond m with
    | ok c =>
      rw [hr] at h
      have hc : c = "" := by simpa [propUsable] using h
      simp [propLoop, hr, hc]
    | httpErr st b =>
      simp [propLoop, hr]
      exact propLoop_attempts_indep respond ms (some b) le
    | fetchThrow s =>
      simp [propLoop, hr]
      exact propLoop_attempts_indep respond ms (some s) le
  · intro respond m ms le h
    cases hr : respond m with
    | ok c =>
      rw [hr] at h
      have hc : c ≠ "" := by simpa [propUsable] using h
      simp [propLoop, hr, hc]
    | httpErr st b => rw [hr] at h; simp [propUsable] at h
    | fetchThrow s => rw [hr] at h; simp [propUsable] at h
  · intro respond m ms p le h
    cases hr : respond m with
    | ok c =>
      rw [hr] at h
      by_cases hc : c = ""
      · simp [contentLoop, hr, hc]
      · cases hs : spanParse c with
        | parsed v =>
          have hv : ¬ 0 < jsLen v := by
            simpa [contentUsable, hc, hs] using h
          simp [contentLoop, hr, hc, hs, hv]
          exact contentLoop_attempts_indep respond ms v p le le
        | noSpan => simp [contentLoop, hr, hc, hs]
        | parseFail => simp [contentLoop, hr, hc, hs]
    | httpErr st b =>
      simp [contentLoop, hr]
      exact contentLoop_attempts_indep respond ms p p (some b) le
    | fetchThrow s =>
      simp [contentLoop, hr]
      exact contentLoop_attempts_indep respond ms p p (some s) le
  · intro respond m ms p le h
    cases hr : respond m with
    | ok c =>
      rw [hr] at h
      by_cases hc : c = ""
      · simp [contentUsable, hc] at h
      · cases hs : spanParse c with
        | parsed v =>
          have hv : 0 < jsLen v := by
            simpa [contentUsable, hc, hs] using h
          simp [contentLoop, hr, hc, hs, hv]
        | noSpan => simp [contentUsable, hc, hs] at h
        | parseFail => simp [contentUsable, hc, hs] at h
    | httpErr st b => rw [hr] at h; simp [contentUsable] at h
    | fetchThrow s => rw [hr] at h; simp [contentUsable] at h

/-- Witness for C1: the transition rules at concrete outcomes. -/
theorem fallback_tries_in_order_until_success_witness :
    (propLoop scenarioRespond
        ("meta-llama/llama-3.1-8b-instruct:free" :: ["google/gemma-7b-it:free"])
        none).attempts =
      "meta-llama/llama-3.1-8b-instruct:free" ::
        (propLoop scenarioRespond ["google/gemma-7b-it:free"] none).attempts
    ∧ (propLoop scenarioRespond
        ("meta-llama/llama-3-8b-instruct:free" :: ["extra"]) none).attempts =
      ["meta-llama/llama-3-8b-instruct:free"]
    ∧ (contentLoop scenarioRespond
        ("google/gemma-7b-it:free" :: ["extra"]) (.arr []) none).attempts =
      "google/gemma-7b-it:free" ::
        (contentLoop scenarioRespond ["extra"] (.arr []) none).attempts
    ∧ (contentLoop alwaysArrayRespond ("first" :: ["second"]) (.arr [])
        none).attempts = ["first"] :=
  ⟨fallback_tries_in_order_until_success.2.1 scenarioRespond
     "meta-llama/llama-3.1-8b-instruct:free" ["google/gemma-7b-it:free"]
     none (by decide),
   fallback_tries_in_order_until_success.2.2.1 scenarioRespond
     "meta-llama/llama-3-8b-instruct:free" ["extra"] none (by decide),
   fallback_tries_in_order_until_success.2.2.2.1 scenarioRespond
     "google/gemma-7b-it:free" ["extra"] (.arr []) none (by decide),
   fallback_tries_in_order_until_success.2.2.2.2.1 alwaysArrayRespond
     "first" ["second"] (.arr []) none (by decide)⟩

/-- C2 counterexample: two exhaustion runs whose last observed failure
is the same empty-output outcome at the fourth candidate produce
different details (each derived from the first failure), so the
details are not derived from the last observed failure; empty-output
failures never update the recorded error. -/
theorem exhaustion_details_ignore_last_empty_failure :
    (propGenerate exhaustRespondA validPropReq).1 =
      ⟨500, .obj [("error", .str "Error de IA (Agotado)"),
                  ("details", .str "upstream down A")]⟩
    ∧ (propGenerate exhaustRespondB validPropReq).1 =
      ⟨500, .obj [("error", .str "Error de IA (Agotado)"),
                  ("details", .str "upstream down B")]⟩
    ∧ exhaustRespondA "meta-llama/llama-3-8b-instruct:free" = .ok ""
    ∧ exhaustRespondB "meta-llama/llama-3-8b-instruct:free" = .ok "" :=
  ⟨rfl, rfl, rfl, rfl⟩

/-- C2 (amended): on exhaustion the endpoints respond with the 500
built from the last RECORDED error — the most recent transport-error
message or non-2xx body text; empty-output (and, for content,
parse-failure) attempts record nothing — and when no error was
recorded at all the response degrades to the generic internal 500. -/
theorem exhaustion_last_recorded_error :
    (∀ (respond : String → CallOutcome) (req : PropReq),
       truthyOpt req.propertyType = true → truthyOpt req.location = true →
       (propLoop respond fallbackModels none).description = "" →
       (propGenerate respond req).1 =
         exhaustResponse
           (lastSome (fallbackModels.map (fun m => errMsgOf (respond m)))))
    ∧ (∀ (respond : String → CallOutcome) (req : ContentReq),
       truthyOpt req.businessType = true →
       jsLen (contentLoop respond fallbackModels (.arr []) none).posts = 0 →
       (contentGenerate respond req).1 =
         exhaustResponse
           (lastSome (fallbackModels.map (fun m => errMsgOf (respond m)))))
    ∧ (∀ (s : String) (d : Js), errorDetails s = some d →
       exhaustResponse (some s) =
         ⟨500, .obj [("error", .str "Error de IA (Agotado)"),
                     ("details", d)]⟩)
    ∧ exhaustResponse none = resp500internal nullReadErrorMsg := by
  refine ⟨?_, ?_, ?_, rfl⟩
  · intro respond req h1 h2 hex
    have hl := (propLoop_exhaust respond fallbackModels none hex).1
    simp [propGenerate, h1, h2, hex, lastSome, hl]
  · intro respond req h1 hex
    have hl := (contentLoop_exhaust respond fallbackModels (.arr []) none hex).1
    simp [contentGenerate, h1, hex, lastSome, hl]
  · intro s d h
    simp [exhaustResponse, h]

/-- Witness for C2 (amended): exhaustion at a concrete run. -/
theorem exhaustion_last_recorded_error_witness :
    (propGenerate exhaustRespondA validPropReq).1 =
      exhaustResponse
        (lastSome (fallbackModels.map (fun m => errMsgOf (exhaustRespondA m))))
    ∧ exhaustResponse (some "plain text") =
      ⟨500, .obj [("error", .str "Error de IA (Agotado)"),
                  ("details", .str "plain text")]⟩ :=
  ⟨exhaustion_last_recorded_error.1 exhaustRespondA validPropReq
     (by decide) (by decide) (by rfl),
   exhaustion_last_recorded_error.2.2.1 "plain text" (.str "plain text")
     (by rfl)⟩

/-- C3 counterexample: in the single-model OpenRouter variant a 2xx
upstream reply whose extracted content is empty is serialized as a 200
with success:true and an empty description — the claimed
EmptyResponse failure does not exist in that variant. -/
theorem single_variant_200_empty_description :
    propGenerateSingle (.ok "") validPropReq = (⟨200, successDesc ""⟩, 1) :=
  rfl

/-- C3 (amended): the Inaia variant indeed never produces a 200 with an
empty or whitespace-only description — every outcome is a 500 or a 200
with a non-blank description — but the single-model OpenRouter variant
serializes whatever content a 2xx reply carried, including the empty
string. -/
theorem inaia_never_200_empty :
    (∀ (outcome : CallOutcome) (req : PropReq),
       truthyOpt req.propertyType = true → truthyOpt req.location = true →
       (inaiaPropGenerate outcome req).1.status = 500 ∨
       ∃ d, (inaiaPropGenerate outcome req).1 = ⟨200, successDesc d⟩ ∧
            jsTrim d ≠ "")
    ∧ (∀ (c : String) (req : PropReq),
       truthyOpt req.propertyType = true → truthyOpt req.location = true →
       propGenerateSingle (.ok c) req = (⟨200, successDesc c⟩, 1)) := by
  constructor
  · intro outcome req h1 h2
    cases outcome with
    | fetchThrow m =>
      left; simp [inaiaPropGenerate, h1, h2, callInaia, resp500internal]
    | httpErr st b =>
      left; simp [inaiaPropGenerate, h1, h2, callInaia, resp500internal]
    | ok t =>
      by_cases ht : jsTrim t = ""
      · left
        simp [inaiaPropGenerate, h1, h2, callInaia, ht, resp500internal]
      · right
        exact ⟨t, by simp [inaiaPropGenerate, h1, h2, callInaia, ht], ht⟩
  · intro c req h1 h2
    simp [propGenerateSingle, h1, h2]

/-- Witness for C3 (amended): a whitespace-only Inaia reply and an
empty OpenRouter reply, at concrete requests. -/
theorem inaia_never_200_empty_witness :
    ((inaiaPropGenerate (.ok "  \n ") validPropReq).1.status = 500 ∨
     ∃ d, (inaiaPropGenerate (.ok "  \n ") validPropReq).1 =
            ⟨200, successDesc d⟩ ∧ jsTrim d ≠ "")
    ∧ propGenerateSingle (.ok "hola") validPropReq =
        (⟨200, successDesc "hola"⟩, 1) :=
  ⟨inaia_never_200_empty.1 (.ok "  \n ") validPropReq (by decide) (by decide),
   inaia_never_200_empty.2 "hola" validPropReq (by decide) (by decide)⟩

/-- C4 counterexample: a negative postCount is not treated as the
default 5 — parseInt(-1) is truthy, so -1 survives the || and the
Math.min cap and is used as-is. -/
theorem postCount_negative_not_defaulted :
    clampCount (some (-1)) = -1 ∧ ¬ ((-1 : Int) = 5) := by
  constructor
  · decide
  · decide

/-- C4 (amended): a missing or zero postCount defaults to 5, values are
capped above at 30 (45 becomes 30, 7 stays 7) and the effective count
is what the prompt encodes after "Genera "; but there is no lower
bound: a negative input passes through unchanged. -/
theorem postCount_clamp_behavior :
    clampCount none = 5
    ∧ clampCount (some 0) = 5
    ∧ clampCount (some 45) = 30
    ∧ clampCount (some 7) = 7
    ∧ (∀ n : Int, n < 0 → clampCount (some n) = n)
    ∧ (∀ n : Int, 0 < n → clampCount (some n) = min n 30)
    ∧ (∀ req : ContentReq, ∃ rest,
        contentPromptOf req =
          "Genera " ++ toString (clampCount req.postCount) ++ rest) := by
  refine ⟨by decide, by decide, by decide, by decide, ?_, ?_, ?_⟩
  · intro n h
    simp [clampCount, show ¬ n = 0 by omega]
    omega
  · intro n h
    simp [clampCount, show ¬ n = 0 by omega]
  · intro req
    exact ⟨contentPromptTail
      ⟨req.businessType, req.businessDesc, req.tone, req.network,
       clampCount req.postCount⟩, rfl⟩

/-- Witness for C4 (amended): the clamp and the prompt prefix at
concrete counts. -/
theorem postCount_clamp_behavior_witness :
    clampCount (some (-5)) = -5
    ∧ clampCount (some 12) = min 12 30
    ∧ ∃ rest, contentPromptOf validContentReq =
        "Genera " ++ toString (clampCount validContentReq.postCount) ++ rest :=
  ⟨postCount_clamp_behavior.2.2.2.2.1 (-5) (by decide),
   postCount_clamp_behavior.2.2.2.2.2.1 12 (by decide),
   postCount_clamp_behavior.2.2.2.2.2.2 validContentReq⟩

/-- C5: a request missing propertyType or location (or businessType for
the content endpoints) is answered 400 with the field-naming message,
and no upstream call is made (the attempt list is empty, the call
count zero), in every variant. -/
theorem missing_fields_400_no_upstream_call :
    (∀ (respond : String → CallOutcome) (req : PropReq),
       truthyOpt req.propertyType = false ∨ truthyOpt req.location = false →
       propGenerate respond req = (resp400 propMissingMsg, []))
    ∧ (∀ (outcome : CallOutcome) (req : PropReq),
       truthyOpt req.propertyType = false ∨ truthyOpt req.location = false →
       propGenerateSingle outcome req = (resp400 propMissingMsg, 0))
    ∧ (∀ (outcome : CallOutcome) (req : PropReq),
       truthyOpt req.propertyType = false ∨ truthyOpt req.location = false →
       inaiaPropGenerate outcome req = (resp400 propMissingMsg, 0))
    ∧ (∀ (respond : String → CallOutcome) (req : ContentReq),
       truthyOpt req.businessType = false →
       contentGenerate respond req = (resp400 bizMissingMsg, []))
    ∧ (∀ (outcome : CallOutcome) (req : ContentReq),
       truthyOpt req.businessType = false →
       contentGenerateSingle outcome req = (resp400 bizMissingMsg, 0)) := by
  refine ⟨?_, ?_, ?_, ?_, ?_⟩
  · intro respond req h
    rcases h with h | h <;> simp [propGenerate, h]
  · intro outcome req h
    rcases h with h | h <;> simp [propGenerateSingle, h]
  · intro outcome req h
    rcases h with h | h <;> simp [inaiaPropGenerate, h]
  · intro respond req h
    simp [contentGenerate, h]
  · intro outcome req h
    simp [contentGenerateSingle, h]

/-- Witness for C5: concrete requests with a missing required field. -/
theorem missing_fields_400_no_upstream_call_witness :
    propGenerate scenarioRespond noTypeReq = (resp400 propMissingMsg, [])
    ∧ propGenerateSingle (.ok "x") noTypeReq = (resp400 propMissingMsg, 0)
    ∧ inaiaPropGenerate (.ok "x") noTypeReq = (resp400 propMissingMsg, 0)
    ∧ contentGenerate scenarioRespond noBizReq = (resp400 bizMissingMsg, [])
    ∧ contentGenerateSingle (.ok "x") noBizReq = (resp400 bizMissingMsg, 0) :=
  ⟨missing_fields_400_no_upstream_call.1 scenarioRespond noTypeReq
     (Or.inl (by decide)),
   missing_fields_400_no_upstream_call.2.1 (.ok "x") noTypeReq
     (Or.inl (by decide)),
   missing_fields_400_no_upstream_call.2.2.1 (.ok "x") noTypeReq
     (Or.inl (by decide)),
   missing_fields_400_no_upstream_call.2.2.2.1 scenarioRespond noBizReq
     (by decide),
   missing_fields_400_no_upstream_call.2.2.2.2 (.ok "x") noBizReq
     (by decide)⟩

/-- The allowed requests for a key never exceed what remains of the
per-window budget. -/
theorem rl_overshoot_aux (cfg : RateLimitConfig) :
    ∀ (reqs : List (Nat × String)) (prev : List (String × Nat))
      (k : String × Nat),
      rlAllowedFor (rlGo cfg prev reqs) k ≤ cfg.maxHits - prev.count k := by
  intro reqs
  induction reqs with
  | nil =>
    intro prev k
    simp [rlGo, rlAllowedFor]
  | cons r rest ih =>
    intro prev k
    obtain ⟨t, ip⟩ := r
    have h := ih (rlKey cfg t ip :: prev) k
    simp only [rlGo, rlAllowedFor, List.countP_cons] at h ⊢
    by_cases hk : rlKey cfg t ip = k
    · subst hk
      have hcount :
          (rlKey cfg t ip :: prev).count (rlKey cfg t ip) =
            prev.count (rlKey cfg t ip) + 1 := by
        simp [List.count_cons]
      rw [hcount] at h
      by_cases hlt : prev.count (rlKey cfg t ip) < cfg.maxHits
      · have hpred :
            ((rlKey cfg t ip, decide (prev.count (rlKey cfg t ip) <
               cfg.maxHits)).1 == rlKey cfg t ip &&
             (rlKey cfg t ip, decide (prev.count (rlKey cfg t ip) <
               cfg.maxHits)).2) = true := by
          simp [hlt]
        rw [hpred]
        simp only [if_true]
        omega
      · have hpred :
            ((rlKey cfg t ip, decide (prev.count (rlKey cfg t ip) <
               cfg.maxHits)).1 == rlKey cfg t ip &&
             (rlKey cfg t ip, decide (prev.count (rlKey cfg t ip) <
               cfg.maxHits)).2) = false := by
          simp [hlt]
        rw [hpred]
        simp only [Bool.false_eq_true, if_false]
        omega
    · have hk' : ¬ k = rlKey cfg t ip := fun hcontra => hk hcontra.symm
      have hcount : (rlKey cfg t ip :: prev).count k = prev.count k := by
        simp [List.count_cons, hk']
      rw [hcount] at h
      have hpred :
          ((rlKey cfg t ip, decide (prev.count (rlKey cfg t ip) <
             cfg.maxHits)).1 == k &&
           (rlKey cfg t ip, decide (prev.count (rlKey cfg t ip) <
             cfg.maxHits)).2) = false := by
        simp [hk]
      rw [hpred]
      simp only [Bool.false_eq_true, if_false]
      omega

/-- C7: the limiter is configured as a 60,000 ms fixed window with at
most 10 requests per client per window and a structured 429 message;
of 11 rapid requests from one client in one window exactly the first
10 pass and the 11th (and any subsequent ones) are denied; the allowed
count for any window key never overshoots the limit. -/
theorem rate_limit_window :
    limiter.windowMs = 60000
    ∧ limiter.maxHits = 10
    ∧ rlDecisions limiter elevenRapid =
        [true, true, true, true, true, true, true, true, true, true, false]
    ∧ rlDecisions limiter thirteenRapid =
        [true, true, true, true, true, true, true, true, true, true,
         false, false, false]
    ∧ rlDenied limiter =
        ⟨429, .obj [("error",
           .str "Demasiadas solicitudes. Por favor espera un momento.")]⟩
    ∧ (∀ (reqs : List (Nat × String)) (k : String × Nat),
        rlAllowedFor (rlGo limiter [] reqs) k ≤ limiter.maxHits) := by
  refine ⟨rfl, rfl, by decide, by decide, rfl, ?_⟩
  intro reqs k
  have h := rl_overshoot_aux limiter reqs [] k
  simpa using h

/-- C8: a request without an Origin header reaches the route handler;
an origin absent from the allow-list is rejected before any handler
runs; a listed origin passes.  The claimed example origin is rejected
under the default allow-list. -/
theorem cors_origin_policy :
    (∀ (allowed : List String) (route : Resp × Nat),
       appPipeline allowed none route = .ok route)
    ∧ (∀ (allowed : List String) (o : String) (route : Resp × Nat),
       allowed.contains o = false →
       appPipeline allowed (some o) route =
         .error ("No permitido por CORS: " ++ o))
    ∧ (∀ (allowed : List String) (o : String) (route : Resp × Nat),
       allowed.contains o = true →
       appPipeline allowed (some o) route = .ok route)
    ∧ appPipeline defaultAllowedOrigins (some "https://evil.example")
        (⟨200, .null⟩, 0) =
      .error "No permitido por CORS: https://evil.example" := by
  refine ⟨fun _ _ => rfl, ?_, ?_, rfl⟩
  · intro allowed o route h
    have h' : ¬ o ∈ allowed := by simpa using h
    simp [appPipeline, corsOriginDecision, h']
  · intro allowed o route h
    have h' : o ∈ allowed := by simpa using h
    simp [appPipeline, corsOriginDecision, h']

/-- Witness for C8: rejection and acceptance at concrete origins. -/
theorem cors_origin_policy_witness :
    appPipeline defaultAllowedOrigins (some "https://other.example")
      (⟨200, .null⟩, 0) =
      .error "No permitido por CORS: https://other.example"
    ∧ appPipeline defaultAllowedOrigins (some "http://localhost:5500")
        (⟨200, .null⟩, 0) = .ok (⟨200, .null⟩, 0) :=
  ⟨cors_origin_policy.2.1 defaultAllowedOrigins "https://other.example"
     (⟨200, .null⟩, 0) (by decide),
   cors_origin_policy.2.2.1 defaultAllowedOrigins "http://localhost:5500"
     (⟨200, .null⟩, 0) (by decide)⟩

set_option maxRecDepth 4096 in
/-- C9 counterexample: "toString" is not one of the recognized style
keys, yet it does not resolve to the default — the lookup finds the
inherited Object.prototype member, which is truthy, so the prompt gets
its stringification and differs from the missing-style prompt. -/
theorem prototype_member_not_defaulted :
    lookupOwnStr styleDescriptions "toString" = none
    ∧ jsLookupOr styleDescriptions (some "toString") "profesional" =
        protoFnStr "toString"
    ∧ jsLookupOr styleDescriptions none "profesional" = "profesional"
    ∧ buildPropertyPrompt
        ⟨some "casa", none, none, none, some "Santiago", none,
         some "toString"⟩ ≠
      buildPropertyPrompt
        ⟨some "casa", none, none, none, some "Santiago", none, none⟩ := by
  refine ⟨rfl, rfl, rfl, ?_⟩
  decide

/-- C9 (amended): the builders are total functions into strings;
missing fields get the fixed placeholders and an unrecognized
style/tone/network value resolves to the same default phrase as a
missing one (professional variant for style and tone, instagram
variant for the network format) — except for the names of inherited
Object.prototype members such as "toString", which resolve to the
inherited member instead of the default. -/
theorem lookup_default_behavior :
    (∀ k : String, lookupOwnStr styleDescriptions k = none →
       objectProtoLookup k = none →
       ∀ d : PropReq,
         buildPropertyPrompt { d with style := some k } =
         buildPropertyPrompt { d with style := none })
    ∧ (∀ k : String, lookupOwnStr toneDescriptions k = none →
       objectProtoLookup k = none →
       ∀ d : ContentFields,
         buildContentPrompt { d with tone := some k } =
         buildContentPrompt { d with tone := none })
    ∧ (∀ k : String, lookupOwnStr networkFormats k = none →
       objectProtoLookup k = none →
       jsLookupOr networkFormats (some k)
         "posts visuales con 3-5 hashtags, máximo 150 palabras" =
       jsLookupOr networkFormats none
         "posts visuales con 3-5 hashtags, máximo 150 palabras")
    ∧ (∀ (own : List (String × String)) (k s dflt : String),
       lookupOwnStr own k = none → objectProtoLookup k = some s →
       jsLookupOr own (some k) dflt = s)
    ∧ jsLookupOr styleDescriptions none "profesional" = "profesional"
    ∧ jsLookupOr toneDescriptions none
        "formal y profesional, enfocado en expertise" =
      "formal y profesional, enfocado en expertise" := by
  refine ⟨?_, ?_, ?_, ?_, rfl, rfl⟩
  · intro k h1 h2 d
    simp [buildPropertyPrompt, jsLookupOr, h1, h2]
  · intro k h1 h2 d
    simp [buildContentPrompt, contentPromptTail, jsLookupOr, h1, h2]
  · intro k h1 h2
    simp [jsLookupOr, h1, h2]
  · intro own k s dflt h1 h2
    simp [jsLookupOr, h1, h2]

/-- Witness for C9 (amended): an unrecognized non-prototype value and a
prototype member, at concrete inputs. -/
theorem lookup_default_behavior_witness :
    buildPropertyPrompt { validPropReq with style := some "garbage" } =
      buildPropertyPrompt { validPropReq with style := none }
    ∧ jsLookupOr styleDescriptions (some "valueOf") "profesional" =
        protoFnStr "valueOf" :=
  ⟨lookup_default_behavior.1 "garbage" (by decide) (by decide) validPropReq,
   lookup_default_behavior.2.2.2.1 styleDescriptions "valueOf"
     (protoFnStr "valueOf") "profesional" (by decide) (by rfl)⟩

/-- C10: in the single-model OpenRouter content endpoint a parse
failure never yields a 500: a SyntaxError from the bracketed span is
replaced by the built-in template fallback posts (always at most 5,
since they are a slice of a fixed 5-template list), text without any
bracketed span yields 200 with an empty posts array, and every 2xx
upstream outcome is answered 200. -/
theorem single_content_parse_never_500 :
    (∀ (req : ContentReq) (c : String),
       truthyOpt req.businessType = true → spanParse c = .parseFail →
       contentGenerateSingle (.ok c) req =
         (⟨200, successPosts (.arr (generateFallbackPosts
            (interpOpt req.businessType) (clampCount req.postCount)))⟩, 1))
    ∧ (∀ (req : ContentReq) (c : String),
       truthyOpt req.businessType = true → spanParse c = .noSpan →
       contentGenerateSingle (.ok c) req =
         (⟨200, successPosts (.arr [])⟩, 1))
    ∧ (∀ (bt : String) (count : Int),
        (generateFallbackPosts bt count).length ≤ 5)
    ∧ (∀ (req : ContentReq) (c : String),
       truthyOpt req.businessType = true →
       (contentGenerateSingle (.ok c) req).1.status = 200) := by
  refine ⟨?_, ?_, ?_, ?_⟩
  · intro req c h hs
    simp [contentGenerateSingle, contentSingleResult, h, hs]
  · intro req c h hs
    simp [contentGenerateSingle, contentSingleResult, h, hs]
  · intro bt count
    unfold generateFallbackPosts jsSliceTo
    by_cases h : (0 : Int) ≤ count
    · simp [h, fallbackTemplates, List.length_take]
    · simp [h, fallbackTemplates, List.length_take]
  · intro req c h
    cases hs : spanParse c <;>
      simp [contentGenerateSingle, contentSingleResult, h, hs]

/-- Witness for C10: a parse failure and a span-free text at a
concrete request. -/
theorem single_content_parse_never_500_witness :
    contentGenerateSingle (.ok "x[\x7d]") validContentReq =
      (⟨200, successPosts (.arr (generateFallbackPosts
         (interpOpt validContentReq.businessType)
         (clampCount validContentReq.postCount)))⟩, 1)
    ∧ contentGenerateSingle (.ok "sin corchetes") validContentReq =
        (⟨200, successPosts (.arr [])⟩, 1)
    ∧ (generateFallbackPosts "Cafetería" 45).length ≤ 5 :=
  ⟨single_content_parse_never_500.1 validContentReq "x[\x7d]"
     (by decide) (by rfl),
   single_content_parse_never_500.2.1 validContentReq "sin corchetes"
     (by decide) (by rfl),
   single_content_parse_never_500.2.2.1 "Cafetería" 45⟩

end SaasBackend
